import Mathlib

/-!
Shallow embedding of the HOSCON hospital situational-control application
(`pppp_app.py`): a SQLite-backed store with six tables (departments, staff,
incidents, tasks, resources, communication_logs) and the handlers that
mutate it.  SQLite TEXT columns are `String`, INTEGER columns are `Int` or
`Nat` (row ids), nullable reference columns are `Option Nat`.  A committed
store is a `DB`; statements executed inside the implicit transaction of the
Python sqlite3 connection become visible only when the handler reaches
`conn.commit()`, which the compound-operation model below makes explicit.
-/

namespace PPPP

/-- A SQLite value as it appears in an exported record: NULL, INTEGER or TEXT. -/
inductive Val where
  | vnull : Val
  | vint : Int → Val
  | vtext : String → Val
deriving DecidableEq, Repr

/-- Row of `departments (id INTEGER PRIMARY KEY, name TEXT UNIQUE, status TEXT, notes TEXT)`. -/
structure Department where
  id : Nat
  name : String
  status : String
  notes : String
deriving DecidableEq, Repr

/-- Row of `staff (id INTEGER PRIMARY KEY, name TEXT, role TEXT, department_id INTEGER, present INTEGER DEFAULT 0)`.
Note: `name` carries no UNIQUE constraint. -/
structure Staff where
  id : Nat
  name : String
  role : String
  department_id : Option Nat
  present : Int
deriving DecidableEq, Repr

/-- Row of `incidents (id INTEGER PRIMARY KEY, type TEXT, description TEXT, timestamp TEXT, priority TEXT, status TEXT DEFAULT 'Open')`. -/
structure Incident where
  id : Nat
  itype : String
  description : String
  timestamp : String
  priority : String
  status : String
deriving DecidableEq, Repr

/-- Row of `tasks (id INTEGER PRIMARY KEY, incident_id INTEGER, title TEXT, assigned_to INTEGER, status TEXT, timestamp TEXT, resource_id INTEGER)`. -/
structure Task where
  id : Nat
  incident_id : Nat
  title : String
  assigned_to : Option Nat
  status : String
  timestamp : String
  resource_id : Option Nat
deriving DecidableEq, Repr

/-- Row of `resources (id INTEGER PRIMARY KEY, name TEXT UNIQUE, quantity INTEGER, unit TEXT)`. -/
structure Resource where
  id : Nat
  name : String
  quantity : Int
  unit : String
deriving DecidableEq, Repr

/-- Row of `communication_logs (id INTEGER PRIMARY KEY, timestamp TEXT, sender TEXT, recipient TEXT, message TEXT, incident_id INTEGER)`. -/
structure CommLog where
  id : Nat
  timestamp : String
  sender : String
  recipient : String
  message : String
  incident_id : Option Nat
deriving DecidableEq, Repr

/-- The committed store: for each of the six tables, whether the table exists
in the schema and its rows in insertion (rowid) order. -/
structure DB where
  hasDepartments : Bool
  departments : List Department
  hasStaff : Bool
  staff : List Staff
  hasIncidents : Bool
  incidents : List Incident
  hasTasks : Bool
  tasks : List Task
  hasResources : Bool
  resources : List Resource
  hasCommLogs : Bool
  commLogs : List CommLog
deriving DecidableEq, Repr

/-- A store with no tables at all (fresh database file). -/
def emptyDB : DB :=
  ⟨false, [], false, [], false, [], false, [], false, [], false, []⟩

/-- The rowid SQLite assigns to a fresh row of a table whose existing rowids
are `ids`: one more than the current maximum. -/
def nextId (ids : List Nat) : Nat :=
  ids.foldr max 0 + 1

/-- Embedding of `init_db` (lines 11-67): six `CREATE TABLE IF NOT EXISTS`
statements.  A table that already exists is left untouched, rows included;
a missing table is created empty.  No statement fails. -/
def init_db (db : DB) : DB where
  hasDepartments := true
  departments := if db.hasDepartments then db.departments else []
  hasStaff := true
  staff := if db.hasStaff then db.staff else []
  hasIncidents := true
  incidents := if db.hasIncidents then db.incidents else []
  hasTasks := true
  tasks := if db.hasTasks then db.tasks else []
  hasResources := true
  resources := if db.hasResources then db.resources else []
  hasCommLogs := true
  commLogs := if db.hasCommLogs then db.commLogs else []

/-- C5: Schema initialization is idempotent: on a store where the six tables
already exist, `init_db` raises no error, creates no additional tables, and
leaves every table's rows (hence row counts) unchanged — the store is equal
to what it was. -/
theorem init_db_idempotent (db : DB)
    (h1 : db.hasDepartments = true) (h2 : db.hasStaff = true)
    (h3 : db.hasIncidents = true) (h4 : db.hasTasks = true)
    (h5 : db.hasResources = true) (h6 : db.hasCommLogs = true) :
    init_db db = db := by
  cases db
  simp_all [init_db]

/-- C5 witness: a store holding one department row, all six tables present,
is unchanged by a second `init_db`. -/
theorem init_db_idempotent_witness :
    init_db ⟨true, [⟨1, "ICU", "Green", ""⟩], true, [], true, [], true, [], true, [], true, []⟩
      = ⟨true, [⟨1, "ICU", "Green", ""⟩], true, [], true, [], true, [], true, [], true, []⟩ :=
  init_db_idempotent _ rfl rfl rfl rfl rfl rfl

/-- Outcome of an insert as the UI handler reports it: either the statement
succeeded, or a `sqlite3.IntegrityError` from a UNIQUE constraint was caught
and reported with `st.error` (the process keeps serving requests). -/
inductive InsertOutcome where
  | ok : InsertOutcome
  | duplicateKeyError : InsertOutcome
deriving DecidableEq, Repr

/-- Enumerated domain of `Department.status` offered by the tab1 radio widget. -/
def departmentStatuses : List String := ["Green", "Yellow", "Red"]

/-- Enumerated domain of `Incident.priority` offered by the tab3 selectbox. -/
def incidentPriorities : List String := ["Low", "Medium", "High", "Critical"]

/-- Enumerated domain of `Incident.status` offered by the tab3 selectbox. -/
def incidentStatuses : List String := ["Open", "In Progress", "Resolved"]

/-- Enumerated domain of `Task.status` offered by the tab4 radio widget. -/
def taskStatuses : List String := ["Open", "In Progress", "Completed"]

/-- Embedding of `update_incident_details` (lines 124-135):
`UPDATE incidents SET type=?, description=?, priority=?, status=? WHERE id=?`
followed by `conn.commit()`, returning `True`.  SQLite raises no error when
the `WHERE` clause matches zero rows or when a bound TEXT value lies outside
an enumerated set (the columns carry no CHECK constraints), so the `except`
branch is unreachable for these inputs and the function reports success. -/
def update_incident_details (incidents : List Incident) (incident_id : Nat)
    (incident_type description priority status : String) : List Incident × Bool :=
  (incidents.map fun i =>
    if i.id = incident_id then
      { i with itype := incident_type, description := description,
               priority := priority, status := status }
    else i,
   true)

/-- The incident used as concrete input by counterexamples below. -/
def inc1 : Incident :=
  ⟨1, "Fire", "Kitchen fire", "2026-01-01T00:00:00+00:00", "High", "Open"⟩

/-- C3 counterexample: setting `Incident.status` to the out-of-domain value
"Bogus" does not fail with a ValidationError: the operation reports success
(`true`) and the targeted record is changed to carry "Bogus". -/
theorem update_out_of_domain_accepted :
    "Bogus" ∉ incidentStatuses ∧
    update_incident_details [inc1] 1 "Fire" "Kitchen fire" "High" "Bogus"
      = ([{ inc1 with status := "Bogus" }], true) := by
  constructor
  · decide
  · rfl

/-- C3 amended: the repository-level update performs no domain validation:
even when the requested priority or status lies outside its enumerated set,
the operation reports success and the targeted record's fields are set to the
given values verbatim (the enumerated domains are enforced only by the UI's
fixed-choice widgets). -/
theorem update_no_domain_validation (incidents : List Incident) (incident_id : Nat)
    (t d p s : String) (i : Incident) (hmem : i ∈ incidents) (hid : i.id = incident_id)
    (_hdom : p ∉ incidentPriorities ∨ s ∉ incidentStatuses) :
    (update_incident_details incidents incident_id t d p s).2 = true ∧
    { i with itype := t, description := d, priority := p, status := s }
      ∈ (update_incident_details incidents incident_id t d p s).1 := by
  refine ⟨rfl, ?_⟩
  simp only [update_incident_details]
  refine List.mem_map.mpr ⟨i, hmem, ?_⟩
  rw [if_pos hid]

/-- C3 amended, witness: the out-of-domain update of `inc1` reports success
and stores the value verbatim. -/
theorem update_no_domain_validation_witness :
    (update_incident_details [inc1] 1 "Fire" "Kitchen fire" "High" "Bogus").2 = true ∧
    { inc1 with itype := "Fire", description := "Kitchen fire",
                priority := "High", status := "Bogus" }
      ∈ (update_incident_details [inc1] 1 "Fire" "Kitchen fire" "High" "Bogus").1 :=
  update_no_domain_validation [inc1] 1 "Fire" "Kitchen fire" "High" "Bogus" inc1
    (by decide) rfl (Or.inr (by decide))

/-- C4 counterexample: updating incident id 1 in an empty incidents table
reports success (`true`) rather than failing with a NotFoundError. -/
theorem update_missing_id_reports_success :
    update_incident_details [] 1 "t" "d" "p" "s" = ([], true) := rfl

/-- C4 amended: an update whose id matches no row reports success (returns
`true`, no NotFoundError is raised) and modifies no row: the table is
returned unchanged. -/
theorem update_missing_id_noop_success (incidents : List Incident) (incident_id : Nat)
    (t d p s : String) (h : ∀ i ∈ incidents, i.id ≠ incident_id) :
    update_incident_details incidents incident_id t d p s = (incidents, true) := by
  unfold update_incident_details
  refine Prod.ext ?_ rfl
  show incidents.map _ = incidents
  induction incidents with
  | nil => rfl
  | cons x xs ih =>
    simp only [List.map_cons]
    rw [if_neg (h x (List.mem_cons_self x xs))]
    rw [ih fun i hi => h i (List.mem_cons_of_mem x hi)]

/-- C4 amended, witness: updating the absent id 99 in a one-row table leaves
the table unchanged and reports success. -/
theorem update_missing_id_noop_success_witness :
    update_incident_details [inc1] 99 "t" "d" "p" "s" = ([inc1], true) :=
  update_missing_id_noop_success [inc1] 99 "t" "d" "p" "s" (by decide)

/-- C8: the incident detail update sets type, description, priority and
status only: every row's `id` and `timestamp` are unchanged by the update. -/
theorem update_preserves_id_timestamp (incidents : List Incident) (incident_id : Nat)
    (t d p s : String) :
    ((update_incident_details incidents incident_id t d p s).1).map
        (fun i => (i.id, i.timestamp))
      = incidents.map (fun i => (i.id, i.timestamp)) := by
  unfold update_incident_details
  induction incidents with
  | nil => rfl
  | cons x xs ih =>
    simp only [List.map_cons, ih]
    by_cases hx : x.id = incident_id
    · rw [if_pos hx]
    · rw [if_neg hx]

/-- Embedding of the tab5 "Add Resource" handler (lines 338-346):
`INSERT INTO resources(name, quantity, unit) VALUES (?, ?, ?)` inside
`try/except sqlite3.IntegrityError`.  `resources.name` is declared UNIQUE, so
a duplicate name makes the statement raise `IntegrityError`; the handler
catches it and reports the error, leaving the table untouched (a failed
statement changes nothing).  Otherwise the row is appended with a fresh id. -/
def addResource (resources : List Resource) (name : String) (quantity : Int)
    (unit : String) : List Resource × InsertOutcome :=
  if resources.any (fun r => r.name == name) then
    (resources, .duplicateKeyError)
  else
    (resources ++ [⟨nextId (resources.map (·.id)), name, quantity, unit⟩], .ok)

/-- Embedding of the seed loader's department insert (line 82):
`INSERT OR IGNORE INTO departments (name, status, notes) VALUES (?, ?, ?)`.
`departments.name` is UNIQUE, and `OR IGNORE` turns the constraint violation
into silently skipping the row: the statement succeeds either way, so the
outcome is always `ok` and no error reaches the caller. -/
def insertOrIgnoreDepartment (departments : List Department)
    (name status notes : String) : List Department × InsertOutcome :=
  if departments.any (fun d => d.name == name) then
    (departments, .ok)
  else
    (departments ++ [⟨nextId (departments.map (·.id)), name, status, notes⟩], .ok)

/-- Embedding of the seed loader's resource insert (line 112):
`INSERT OR IGNORE INTO resources (name, quantity, unit)`, with the same
silent-skip semantics as the department seed insert. -/
def insertOrIgnoreResource (resources : List Resource) (name : String)
    (quantity : Int) (unit : String) : List Resource :=
  if resources.any (fun r => r.name == name) then resources
  else resources ++ [⟨nextId (resources.map (·.id)), name, quantity, unit⟩]

/-- Embedding of the tab2 "Add New Staff" handler (lines 205-213):
`INSERT INTO staff(name, role, department_id, present) VALUES (?, ?, ?, 0)`
inside `try/except sqlite3.IntegrityError`.  The `staff` table declares no
UNIQUE constraint and the auto-assigned rowid never collides, so the insert
never raises: the `except` branch is unreachable and the outcome is `ok`. -/
def addNewStaff (staff : List Staff) (name role : String) (deptId : Nat) :
    List Staff × InsertOutcome :=
  (staff ++ [⟨nextId (staff.map (·.id)), name, role, some deptId, 0⟩], .ok)

/-- Embedding of the seed loader's staff insert (line 94):
`INSERT OR IGNORE INTO staff (name, role, department_id, present)`.  Since
`staff` declares no constraint an insert with a fresh rowid could violate,
`OR IGNORE` never actually ignores: the row is always appended. -/
def insertOrIgnoreStaff (staff : List Staff) (name role : String)
    (deptId : Option Nat) (present : Int) : List Staff :=
  staff ++ [⟨nextId (staff.map (·.id)), name, role, deptId, present⟩]

/-- Every element of a list is at most its `foldr max 0`. -/
theorem le_foldr_max (ids : List Nat) : ∀ x ∈ ids, x ≤ ids.foldr max 0 := by
  induction ids with
  | nil => intro x hx; cases hx
  | cons a l ih =>
    intro x hx
    rcases List.mem_cons.mp hx with h | h
    · subst h; exact le_max_left _ _
    · exact le_trans (ih x h) (le_max_right _ _)

/-- Freshly assigned rowids are new: `nextId ids` is not in `ids`. -/
theorem nextId_not_mem (ids : List Nat) : nextId ids ∉ ids := by
  intro hmem
  have := le_foldr_max ids _ hmem
  simp only [nextId] at this
  omega

/-- C2 counterexample: a department create with a name equal to an existing
one (the seed loader's `INSERT OR IGNORE`, the only department create path)
does not fail with a DuplicateKeyError: it reports `ok` while leaving the
table unchanged. -/
theorem dept_duplicate_no_error :
    insertOrIgnoreDepartment [⟨1, "Emergency Department", "Green", "All clear"⟩]
        "Emergency Department" "Green" "All clear"
      = ([⟨1, "Emergency Department", "Green", "All clear"⟩], InsertOutcome.ok) ∧
    InsertOutcome.ok ≠ InsertOutcome.duplicateKeyError := by
  constructor
  · rfl
  · decide

/-- C2 amended: creating a Resource whose name equals an existing one fails
with a DuplicateKeyError reported to the caller (no process crash) and leaves
the table's rows — hence its row count — unchanged; a Department create with
an existing name (the seed loader's `INSERT OR IGNORE`, the only department
create path) also leaves the rows unchanged but reports no error. -/
theorem duplicate_name_behavior :
    (∀ (resources : List Resource) (name : String) (q : Int) (u : String),
      (∃ r ∈ resources, r.name = name) →
        addResource resources name q u = (resources, InsertOutcome.duplicateKeyError)) ∧
    (∀ (departments : List Department) (name status notes : String),
      (∃ d ∈ departments, d.name = name) →
        insertOrIgnoreDepartment departments name status notes
          = (departments, InsertOutcome.ok)) := by
  constructor
  · intro resources name q u ⟨r, hr, hname⟩
    unfold addResource
    rw [if_pos]
    exact List.any_eq_true.mpr ⟨r, hr, by simp [hname]⟩
  · intro departments name status notes ⟨d, hd, hname⟩
    unfold insertOrIgnoreDepartment
    rw [if_pos]
    exact List.any_eq_true.mpr ⟨d, hd, by simp [hname]⟩

/-- C2 amended, witness: duplicate "Ventilator" resource create errors and
leaves the table unchanged; duplicate "Pharmacy" department create reports
no error and leaves the table unchanged. -/
theorem duplicate_name_behavior_witness :
    addResource [⟨1, "Ventilator", 10, "units"⟩] "Ventilator" 3 "units"
      = ([⟨1, "Ventilator", 10, "units"⟩], InsertOutcome.duplicateKeyError) ∧
    insertOrIgnoreDepartment [⟨1, "Pharmacy", "Green", ""⟩] "Pharmacy" "Green" ""
      = ([⟨1, "Pharmacy", "Green", ""⟩], InsertOutcome.ok) :=
  ⟨duplicate_name_behavior.1 _ "Ventilator" 3 "units"
      ⟨⟨1, "Ventilator", 10, "units"⟩, by decide, rfl⟩,
   duplicate_name_behavior.2 _ "Pharmacy" "Green" ""
      ⟨⟨1, "Pharmacy", "Green", ""⟩, by decide, rfl⟩⟩

/-- C10: staff names are not unique at the "Add New Staff" interface: when a
staff row with the given name already exists, the insert still succeeds with
no duplicate-name error, and afterwards the table holds two staff rows with
that name under distinct ids. -/
theorem add_staff_duplicate_name_ok (staff : List Staff) (name role : String)
    (deptId : Nat) (s0 : Staff) (hmem : s0 ∈ staff) (hname : s0.name = name) :
    (addNewStaff staff name role deptId).2 = InsertOutcome.ok ∧
    ∃ s1 ∈ (addNewStaff staff name role deptId).1,
      ∃ s2 ∈ (addNewStaff staff name role deptId).1,
        s1.name = name ∧ s2.name = name ∧ s1.id ≠ s2.id := by
  refine ⟨rfl, s0, ?_, ⟨nextId (staff.map (·.id)), name, role, some deptId, 0⟩, ?_, hname, rfl, ?_⟩
  · exact List.mem_append_left _ hmem
  · exact List.mem_append_right _ (List.mem_singleton.mpr rfl)
  · intro hid
    have hmm : s0.id ∈ staff.map (·.id) := List.mem_map_of_mem (·.id) hmem
    rw [hid] at hmm
    exact nextId_not_mem (staff.map (·.id)) hmm

/-- C10 witness: adding "Alice Smith" again next to the seeded row succeeds
and yields two distinct rows with that name. -/
theorem add_staff_duplicate_name_ok_witness :
    (addNewStaff [⟨1, "Alice Smith", "Nurse", some 1, 1⟩] "Alice Smith" "Doctor" 2).2
      = InsertOutcome.ok ∧
    ∃ s1 ∈ (addNewStaff [⟨1, "Alice Smith", "Nurse", some 1, 1⟩] "Alice Smith" "Doctor" 2).1,
      ∃ s2 ∈ (addNewStaff [⟨1, "Alice Smith", "Nurse", some 1, 1⟩] "Alice Smith" "Doctor" 2).1,
        s1.name = "Alice Smith" ∧ s2.name = "Alice Smith" ∧ s1.id ≠ s2.id :=
  add_staff_duplicate_name_ok [⟨1, "Alice Smith", "Nurse", some 1, 1⟩] "Alice Smith"
    "Doctor" 2 ⟨1, "Alice Smith", "Nurse", some 1, 1⟩ (by decide) rfl

/-- Embedding of the tab3 "Log Incident and Assign Task" handler (lines
279-291).  The Python sqlite3 connection runs in deferred-transaction mode:
the incident `INSERT` opens an implicit transaction, `last_insert_rowid()`
reads the new incident id, the task `INSERT` follows, and only the final
`conn.commit()` publishes both rows to the store.  `failBetween` models a
failure raised between the two inserts: the commit is never reached, so the
committed store is returned unchanged.  The task is created with status
"Open", the shared timestamp, and a NULL `resource_id`. -/
def logIncidentAndAssignTask (db : DB) (incType desc ts priority status title : String)
    (staffId : Nat) (failBetween : Bool) : DB :=
  let incId := nextId (db.incidents.map (·.id))
  let pending :=
    { db with incidents := db.incidents
        ++ [(⟨incId, incType, desc, ts, priority, status⟩ : Incident)] }
  if failBetween then db
  else
    { pending with
        tasks := pending.tasks
          ++ [(⟨nextId (pending.tasks.map (·.id)), incId, title, some staffId,
                "Open", ts, none⟩ : Task)] }

/-- C1: the compound incident+task creation is atomic: a failure between the
incident insert and the task insert leaves the committed store exactly as it
was (no orphaned incident), and on the failure-free path both the new
incident row and its dependent task row — whose `incident_id` is the new
incident's id — persist. -/
theorem logIncident_atomic (db : DB)
    (incType desc ts priority status title : String) (staffId : Nat) :
    logIncidentAndAssignTask db incType desc ts priority status title staffId true = db ∧
    (logIncidentAndAssignTask db incType desc ts priority status title staffId false).incidents
      = db.incidents ++ [⟨nextId (db.incidents.map (·.id)), incType, desc, ts, priority, status⟩] ∧
    (logIncidentAndAssignTask db incType desc ts priority status title staffId false).tasks
      = db.tasks ++ [⟨nextId (db.tasks.map (·.id)), nextId (db.incidents.map (·.id)),
                      title, some staffId, "Open", ts, none⟩] := by
  refine ⟨rfl, rfl, rfl⟩

/-- The fixed sample departments of `insert_sample_data` (lines 76-81). -/
def sampleDepartments : List (String × String × String) :=
  [("Emergency Department", "Green", "All clear"),
   ("Intensive Care Unit (ICU)", "Green", "Normal operations"),
   ("Surgery", "Green", "Scheduled procedures"),
   ("Pharmacy", "Green", "Well-stocked")]

/-- The fixed sample staff of `insert_sample_data` (lines 88-93): name, role,
department name (resolved to an id by lookup), present flag. -/
def sampleStaff : List (String × String × String × Int) :=
  [("Alice Smith", "Nurse", "Emergency Department", 1),
   ("Bob Johnson", "Doctor", "Intensive Care Unit (ICU)", 1),
   ("Charlie Brown", "Surgeon", "Surgery", 0),
   ("Diana Prince", "Pharmacist", "Pharmacy", 1)]

/-- The fixed sample incidents of `insert_sample_data` (lines 97-102): type,
description, priority, status; each row's `datetime.now` call is abstracted
as the seed invocation's timestamp argument. -/
def sampleIncidents : List (String × String × String × String) :=
  [("Mass Casualty Event", "Multiple casualties arriving from highway accident", "Critical", "Open"),
   ("Power Outage", "Hospital lost main power, on backup generator", "High", "In Progress"),
   ("Supply Shortage", "Running low on sterile gloves in Emergency", "Medium", "Open"),
   ("Staffing Issue", "Shortage of nurses in ICU for night shift", "High", "Open")]

/-- The fixed sample resources of `insert_sample_data` (lines 106-111). -/
def sampleResources : List (String × Int × String) :=
  [("Ventilator", 10, "units"),
   ("Sterile Gloves", 500, "pairs"),
   ("Blood Bags (O+)", 20, "units"),
   ("Stretchers", 15, "units")]

/-- Lookup of a department id by name, embedding the `dept_ids` dictionary
built on line 86 (`dict.get` yields None for a missing name). -/
def deptIdByName (departments : List Department) (name : String) : Option Nat :=
  (departments.find? (fun d => d.name == name)).map (·.id)

/-- Plain `INSERT INTO incidents (type, description, timestamp, priority, status)`
(line 103): always appends, with a fresh rowid. -/
def appendIncident (incidents : List Incident) (incType desc ts priority status : String) :
    List Incident :=
  incidents ++ [⟨nextId (incidents.map (·.id)), incType, desc, ts, priority, status⟩]

/-- Embedding of `insert_sample_data` (lines 72-115): `INSERT OR IGNORE` of
the sample departments, staff (with department ids resolved by name lookup
against the departments table as it stands after the department inserts),
plain `INSERT` of the sample incidents, `INSERT OR IGNORE` of the sample
resources, then one commit. -/
def insert_sample_data (db : DB) (ts : String) : DB :=
  let depts := sampleDepartments.foldl
    (fun acc t => (insertOrIgnoreDepartment acc t.1 t.2.1 t.2.2).1) db.departments
  let staff := sampleStaff.foldl
    (fun acc t => insertOrIgnoreStaff acc t.1 t.2.1 (deptIdByName depts t.2.2.1) t.2.2.2)
    db.staff
  let incidents := sampleIncidents.foldl
    (fun acc t => appendIncident acc t.1 t.2.1 ts t.2.2.1 t.2.2.2) db.incidents
  let resources := sampleResources.foldl
    (fun acc t => insertOrIgnoreResource acc t.1 t.2.1 t.2.2) db.resources
  { db with departments := depts, staff := staff, incidents := incidents,
            resources := resources }

/-- C7 evaluation at the failing input: seeding a fresh store twice leaves
TWO staff rows named "Alice Smith" — the seed loader's `INSERT OR IGNORE`
into `staff` never ignores, because `staff.name` carries no UNIQUE
constraint, so re-seeding duplicates every sample staff row. -/
theorem seed_staff_duplicates_eval :
    (((insert_sample_data (insert_sample_data (init_db emptyDB) "T1") "T2").staff.filter
        (fun s => s.name == "Alice Smith")).length) = 2 := by
  rfl

/-- The staff rows a task joins with under
`LEFT JOIN staff s ON t.assigned_to = s.id` (line 304): SQL equality with a
NULL `assigned_to` matches nothing. -/
def leftJoinMatches (staff : List Staff) (t : Task) : List Staff :=
  staff.filter (fun s => t.assigned_to == some s.id)

/-- Embedding of the tab4 read
`SELECT t.*, s.name as assigned_staff FROM tasks t LEFT JOIN staff s ON t.assigned_to = s.id`
(line 304): each task row paired with the joined staff name; a task with no
matching staff row still appears, with a NULL name. -/
def tasksLeftJoinStaff (tasks : List Task) (staff : List Staff) :
    List (Task × Option String) :=
  tasks.flatMap fun t =>
    let ms := leftJoinMatches staff t
    if ms.isEmpty then [(t, none)] else ms.map (fun s => (t, some s.name))

/-- With pairwise-distinct staff ids, filtering staff by an id keeps at most
one row: the one `find?` returns. -/
theorem filter_id_toList_find (staff : List Staff) (a : Nat)
    (h : (staff.map (·.id)).Nodup) :
    staff.filter (fun s => a == s.id) = (staff.find? (fun s => s.id == a)).toList := by
  induction staff with
  | nil => rfl
  | cons s rest ih =>
    rw [List.map_cons, List.nodup_cons] at h
    by_cases hsa : s.id = a
    · have hrest : rest.filter (fun s => a == s.id) = [] := by
        refine List.filter_eq_nil_iff.mpr fun x hx => ?_
        simp only [beq_iff_eq]
        intro hax
        apply h.1
        rw [hsa, hax]
        exact List.mem_map_of_mem (·.id) hx
      simp [List.filter_cons, List.find?_cons, hsa, hrest]
    · have hb : (a == s.id) = false := by
        refine beq_eq_false_iff_ne.mpr fun hc => hsa hc.symm
      have hb2 : (s.id == a) = false := beq_eq_false_iff_ne.mpr hsa
      simp only [List.filter_cons, List.find?_cons, hb, hb2, Bool.false_eq_true,
        if_false, cond_false]
      exact ih h.2

/-- One row of the left join, in closed form: with pairwise-distinct staff
ids, a task contributes exactly one joined row, carrying the name found by
its `assigned_to` reference, or NULL when that reference is NULL or dangling. -/
theorem leftJoinRow_eq (staff : List Staff) (t : Task)
    (h : (staff.map (·.id)).Nodup) :
    (if (leftJoinMatches staff t).isEmpty then [(t, (none : Option String))]
     else (leftJoinMatches staff t).map (fun s => (t, some s.name)))
      = [(t, (t.assigned_to.bind fun a => staff.find? (fun s => s.id == a)).map (·.name))] := by
  cases hass : t.assigned_to with
  | none =>
    have hms : leftJoinMatches staff t = [] := by
      refine List.filter_eq_nil_iff.mpr fun x hx => ?_
      simp [hass]
    simp [hms, hass]
  | some a =>
    have hms : leftJoinMatches staff t = (staff.find? (fun s => s.id == a)).toList := by
      unfold leftJoinMatches
      rw [← filter_id_toList_find staff a h]
      refine List.filter_congr fun x hx => ?_
      simp [hass]
    cases hf : staff.find? (fun s => s.id == a) with
    | none => simp [hms, hf, hass]
    | some s => simp [hms, hf, hass]

/-- C9: with pairwise-distinct staff ids (staff.id is the PRIMARY KEY), the
tasks-with-assigned-staff-name read is a left join: every task appears
exactly once, a task whose `assigned_to` is NULL or matches no staff id
appears with a NULL assignee name, and a task whose `assigned_to` matches a
staff row carries that staff member's name. -/
theorem tasks_left_join_spec (tasks : List Task) (staff : List Staff)
    (h : (staff.map (·.id)).Nodup) :
    tasksLeftJoinStaff tasks staff
      = tasks.map fun t =>
          (t, (t.assigned_to.bind fun a => staff.find? (fun s => s.id == a)).map (·.name)) := by
  induction tasks with
  | nil => rfl
  | cons t rest ih =>
    unfold tasksLeftJoinStaff at ih ⊢
    rw [List.flatMap_cons, ih, List.map_cons]
    rw [leftJoinRow_eq staff t h]
    rfl

/-- C9 witness: three concrete tasks (assigned to staff 1, unassigned, and
dangling reference 99) joined against two staff rows. -/
theorem tasks_left_join_spec_witness :
    tasksLeftJoinStaff
        [⟨1, 1, "Initial Response", some 1, "Open", "T1", none⟩,
         ⟨2, 1, "Unassigned", none, "Open", "T1", none⟩,
         ⟨3, 2, "Ghost", some 99, "Open", "T1", none⟩]
        [⟨1, "Alice Smith", "Nurse", some 1, 1⟩, ⟨2, "Bob Johnson", "Doctor", some 2, 1⟩]
      = [(⟨1, 1, "Initial Response", some 1, "Open", "T1", none⟩, some "Alice Smith"),
         (⟨2, 1, "Unassigned", none, "Open", "T1", none⟩, none),
         (⟨3, 2, "Ghost", some 99, "Open", "T1", none⟩, none)] :=
  (tasks_left_join_spec _ _ (by decide)).trans (by rfl)

/-- A nullable INTEGER reference column as an exported value. -/
def encodeOptNat : Option Nat → Val
  | none => .vnull
  | some n => .vint n

/-- A departments row as the field-to-value mapping `df.to_dict(orient="records")`
produces for `SELECT * FROM departments`. -/
def encodeDepartment (d : Department) : List (String × Val) :=
  [("id", .vint d.id), ("name", .vtext d.name),
   ("status", .vtext d.status), ("notes", .vtext d.notes)]

/-- A staff row as its exported field-to-value mapping. -/
def encodeStaff (s : Staff) : List (String × Val) :=
  [("id", .vint s.id), ("name", .vtext s.name), ("role", .vtext s.role),
   ("department_id", encodeOptNat s.department_id), ("present", .vint s.present)]

/-- An incidents row as its exported field-to-value mapping. -/
def encodeIncident (i : Incident) : List (String × Val) :=
  [("id", .vint i.id), ("type", .vtext i.itype), ("description", .vtext i.description),
   ("timestamp", .vtext i.timestamp), ("priority", .vtext i.priority),
   ("status", .vtext i.status)]

/-- A tasks row as its exported field-to-value mapping. -/
def encodeTask (t : Task) : List (String × Val) :=
  [("id", .vint t.id), ("incident_id", .vint t.incident_id), ("title", .vtext t.title),
   ("assigned_to", encodeOptNat t.assigned_to), ("status", .vtext t.status),
   ("timestamp", .vtext t.timestamp), ("resource_id", encodeOptNat t.resource_id)]

/-- A resources row as its exported field-to-value mapping. -/
def encodeResource (r : Resource) : List (String × Val) :=
  [("id", .vint r.id), ("name", .vtext r.name),
   ("quantity", .vint r.quantity), ("unit", .vtext r.unit)]

/-- A communication_logs row as its exported field-to-value mapping. -/
def encodeCommLog (c : CommLog) : List (String × Val) :=
  [("id", .vint c.id), ("timestamp", .vtext c.timestamp), ("sender", .vtext c.sender),
   ("recipient", .vtext c.recipient), ("message", .vtext c.message),
   ("incident_id", encodeOptNat c.incident_id)]

/-- Embedding of `export_all` (lines 139-148): for each of the six tables, in
the order the loop names them, `SELECT * FROM t` read through the live
connection contributes its rows — as field-to-value mappings, in natural list
order — to one combined bundle keyed by table name. -/
def export_all (db : DB) : List (String × List (List (String × Val))) :=
  [("departments", db.departments.map encodeDepartment),
   ("staff", db.staff.map encodeStaff),
   ("incidents", db.incidents.map encodeIncident),
   ("tasks", db.tasks.map encodeTask),
   ("resources", db.resources.map encodeResource),
   ("communication_logs", db.commLogs.map encodeCommLog)]

/-- Reading one table's record list back out of the combined bundle by its key. -/
def bundleTable (bundle : List (String × List (List (String × Val)))) (t : String) :
    Option (List (List (String × Val))) :=
  (bundle.find? (fun p => p.1 == t)).map (·.2)

/-- Value of a named field inside one exported record. -/
def fieldVal (r : List (String × Val)) (k : String) : Option Val :=
  (r.find? (fun p => p.1 == k)).map (·.2)

/-- Reading an INTEGER id field back. -/
def decodeNat : Option Val → Option Nat
  | some (.vint i) => some i.toNat
  | _ => none

/-- Reading an INTEGER field back. -/
def decodeInt : Option Val → Option Int
  | some (.vint i) => some i
  | _ => none

/-- Reading a TEXT field back. -/
def decodeText : Option Val → Option String
  | some (.vtext s) => some s
  | _ => none

/-- Reading a nullable INTEGER reference field back. -/
def decodeOptNat : Option Val → Option (Option Nat)
  | some (.vint i) => some (some i.toNat)
  | some .vnull => some none
  | _ => none

/-- Reconstructing a departments row from its exported record. -/
def decodeDepartment (r : List (String × Val)) : Option Department := do
  let id ← decodeNat (fieldVal r "id")
  let name ← decodeText (fieldVal r "name")
  let status ← decodeText (fieldVal r "status")
  let notes ← decodeText (fieldVal r "notes")
  return ⟨id, name, status, notes⟩

/-- Reconstructing a staff row from its exported record. -/
def decodeStaff (r : List (String × Val)) : Option Staff := do
  let id ← decodeNat (fieldVal r "id")
  let name ← decodeText (fieldVal r "name")
  let role ← decodeText (fieldVal r "role")
  let dep ← decodeOptNat (fieldVal r "department_id")
  let pres ← decodeInt (fieldVal r "present")
  return ⟨id, name, role, dep, pres⟩

/-- Reconstructing an incidents row from its exported record. -/
def decodeIncident (r : List (String × Val)) : Option Incident := do
  let id ← decodeNat (fieldVal r "id")
  let ity ← decodeText (fieldVal r "type")
  let desc ← decodeText (fieldVal r "description")
  let ts ← decodeText (fieldVal r "timestamp")
  let pri ← decodeText (fieldVal r "priority")
  let st ← decodeText (fieldVal r "status")
  return ⟨id, ity, desc, ts, pri, st⟩

/-- Reconstructing a tasks row from its exported record. -/
def decodeTask (r : List (String × Val)) : Option Task := do
  let id ← decodeNat (fieldVal r "id")
  let incId ← decodeNat (fieldVal r "incident_id")
  let title ← decodeText (fieldVal r "title")
  let asg ← decodeOptNat (fieldVal r "assigned_to")
  let st ← decodeText (fieldVal r "status")
  let ts ← decodeText (fieldVal r "timestamp")
  let res ← decodeOptNat (fieldVal r "resource_id")
  return ⟨id, incId, title, asg, st, ts, res⟩

/-- Reconstructing a resources row from its exported record. -/
def decodeResource (r : List (String × Val)) : Option Resource := do
  let id ← decodeNat (fieldVal r "id")
  let name ← decodeText (fieldVal r "name")
  let q ← decodeInt (fieldVal r "quantity")
  let u ← decodeText (fieldVal r "unit")
  return ⟨id, name, q, u⟩

/-- Reconstructing a communication_logs row from its exported record. -/
def decodeCommLog (r : List (String × Val)) : Option CommLog := do
  let id ← decodeNat (fieldVal r "id")
  let ts ← decodeText (fieldVal r "timestamp")
  let snd ← decodeText (fieldVal r "sender")
  let rcp ← decodeText (fieldVal r "recipient")
  let msg ← decodeText (fieldVal r "message")
  let incId ← decodeOptNat (fieldVal r "incident_id")
  return ⟨id, ts, snd, rcp, msg, incId⟩

/-- Encoding then decoding a row is lossless, elementwise over a table. -/
theorem mapM_decode_encode {α β : Type} (f : α → β) (g : β → Option α)
    (hfg : ∀ a, g (f a) = some a) (l : List α) : (l.map f).mapM g = some l := by
  rw [← List.mapM'_eq_mapM]
  induction l with
  | nil => rfl
  | cons a t ih => simp [List.mapM', hfg, ih]

/-- C6: export round-trip: for every state of the store, reading each of the
six tables back out of the combined bundle (keyed by table name) yields the
table's rows as field-to-value mappings in natural list order, and those
mappings decode — field by field, type for type — to exactly the live
store's current rows. -/
theorem export_roundtrip (db : DB) :
    (bundleTable (export_all db) "departments" = some (db.departments.map encodeDepartment)
      ∧ (db.departments.map encodeDepartment).mapM decodeDepartment = some db.departments)
    ∧ (bundleTable (export_all db) "staff" = some (db.staff.map encodeStaff)
      ∧ (db.staff.map encodeStaff).mapM decodeStaff = some db.staff)
    ∧ (bundleTable (export_all db) "incidents" = some (db.incidents.map encodeIncident)
      ∧ (db.incidents.map encodeIncident).mapM decodeIncident = some db.incidents)
    ∧ (bundleTable (export_all db) "tasks" = some (db.tasks.map encodeTask)
      ∧ (db.tasks.map encodeTask).mapM decodeTask = some db.tasks)
    ∧ (bundleTable (export_all db) "resources" = some (db.resources.map encodeResource)
      ∧ (db.resources.map encodeResource).mapM decodeResource = some db.resources)
    ∧ (bundleTable (export_all db) "communication_logs" = some (db.commLogs.map encodeCommLog)
      ∧ (db.commLogs.map encodeCommLog).mapM decodeCommLog = some db.commLogs) := by
  refine ⟨⟨rfl, mapM_decode_encode _ _ ?_ _⟩, ⟨rfl, mapM_decode_encode _ _ ?_ _⟩,
    ⟨rfl, mapM_decode_encode _ _ ?_ _⟩, ⟨rfl, mapM_decode_encode _ _ ?_ _⟩,
    ⟨rfl, mapM_decode_encode _ _ ?_ _⟩, ⟨rfl, mapM_decode_encode _ _ ?_ _⟩⟩
  · intro d; cases d; rfl
  · intro s; cases s with
    | mk id name role dep pres => cases dep <;> rfl
  · intro i; cases i; rfl
  · intro t; cases t with
    | mk id incId title asg st ts res => cases asg <;> cases res <;> rfl
  · intro r; cases r; rfl
  · intro c; cases c with
    | mk id ts snd rcp msg incId => cases incId <;> rfl

end PPPP
